import Mathlib

/-!
Verification development for the `YahooSearchDAO` data-access layer
(`src/services/yahoo_search_dao.py`).

The module is a thin persistence layer over a relational database: four
operations (`insert_search`, `insert_user`, `fetch_all_searches`,
`fetch_all_users`), each wrapped in a retry decorator
`retry(exceptions=SQLAlchemyError, tries=5, delay=0.01, jitter=(-0.01, 0.01),
backoff=2)`, plus a static `connection_string` helper.

The shallow embedding models:
* timestamps as explicit calendar components (`PyDateTime`), with the
  `strftime` seconds formatting used by the fetch operations;
* the database as explicit lists of typed rows, one list per table;
* each SQL call as a `Statement` (statement text plus named bound
  parameters) interpreted by an executor that binds parameters by name;
* the retry decorator twice: as the explicit loop its parameters describe
  (`retryGo`/`retryCall`, over an attempt oracle with the fault pattern
  and the random jitter draws supplied as input streams), and as the run
  the program actually performs (`asyncDecoratedRun`): the synchronous
  decorator wrapping an `async def` returns the unstarted coroutine from
  its first loop iteration, so the awaited body executes exactly once, no
  delay is slept, and its errors bypass the decorator;
* delays as exact rationals (seconds).
-/

namespace YahooDAO

/-- Calendar components of a Python `datetime` value (UTC), down to the
microsecond, as stored in a `timestamp` column. -/
structure PyDateTime where
  year : Nat
  month : Nat
  day : Nat
  hour : Nat
  minute : Nat
  second : Nat
  microsecond : Nat
deriving DecidableEq, Repr

/-- Truncation of a timestamp to whole seconds: the microsecond part is
dropped. -/
def truncToSeconds (dt : PyDateTime) : PyDateTime :=
  { dt with microsecond := 0 }

/-- The ASCII digit character for a single decimal digit. -/
def digitChar (n : Nat) : Char := Char.ofNat (48 + n)

/-- Two-digit zero-padded decimal rendering (`%m`, `%d`, `%H`, `%M`, `%S`),
as a character list. Faithful to CPython for the value ranges a `datetime`
admits (all below 100). -/
def pad2Chars (n : Nat) : List Char :=
  [digitChar (n / 10 % 10), digitChar (n % 10)]

/-- Four-digit zero-padded decimal rendering (`%Y`), as a character list.
Faithful to CPython for years up to 9999 (the `datetime` maximum). -/
def pad4Chars (n : Nat) : List Char :=
  [digitChar (n / 1000 % 10), digitChar (n / 100 % 10),
   digitChar (n / 10 % 10), digitChar (n % 10)]

/-- The character list produced by
`created_at.strftime("%Y-%m-%d %H:%M:%S")` in the two fetch operations. -/
def strftimeSecsChars (dt : PyDateTime) : List Char :=
  pad4Chars dt.year ++ '-' :: pad2Chars dt.month ++ '-' :: pad2Chars dt.day
    ++ ' ' :: pad2Chars dt.hour ++ ':' :: pad2Chars dt.minute
    ++ ':' :: pad2Chars dt.second

/-- The fixed `YYYY-MM-DD HH:MM:SS` string representation of a timestamp:
the result of `strftime("%Y-%m-%d %H:%M:%S")`. -/
def strftimeSecs (dt : PyDateTime) : String :=
  String.mk (strftimeSecsChars dt)

/-- Numeric value of an ASCII digit character, `none` on any other
character. -/
def digitVal (c : Char) : Option Nat :=
  if 48 ≤ c.toNat ∧ c.toNat ≤ 57 then some (c.toNat - 48) else none

/-- Parser for the fixed `YYYY-MM-DD HH:MM:SS` character pattern. -/
def parseDatetimeSecsChars : List Char → Option PyDateTime
  | [y3, y2, y1, y0, c1, mo1, mo0, c2, d1, d0, c3,
     h1, h0, c4, mi1, mi0, c5, s1, s0] =>
    if c1 = '-' ∧ c2 = '-' ∧ c3 = ' ' ∧ c4 = ':' ∧ c5 = ':' then
      match digitVal y3, digitVal y2, digitVal y1, digitVal y0,
            digitVal mo1, digitVal mo0, digitVal d1, digitVal d0,
            digitVal h1, digitVal h0, digitVal mi1, digitVal mi0,
            digitVal s1, digitVal s0 with
      | some a3, some a2, some a1, some a0, some b1, some b0,
        some e1, some e0, some f1, some f0, some g1, some g0,
        some k1, some k0 =>
          some { year := ((a3 * 10 + a2) * 10 + a1) * 10 + a0,
                 month := b1 * 10 + b0,
                 day := e1 * 10 + e0,
                 hour := f1 * 10 + f0,
                 minute := g1 * 10 + g0,
                 second := k1 * 10 + k0,
                 microsecond := 0 }
      | _, _, _, _, _, _, _, _, _, _, _, _, _, _ => none
    else none
  | _ => none

/-- Modelled from the spec: the `pydantic` deserialization performed by
`SearchResults.parse_obj` / `User.parse_obj` on the `created_at` entry
(the record types live in `src/models/`, which is not part of the sources;
the spec describes a creation timestamp constructed from the fixed
`YYYY-MM-DD HH:MM:SS` string representation). -/
def parseDatetimeSecs (s : String) : Option PyDateTime :=
  parseDatetimeSecsChars s.toList

/-- Field values a Python `datetime` can actually hold never exceed two
digits (year: four digits); within these bounds the zero-padded rendering
is faithful. -/
def ValidDT (dt : PyDateTime) : Prop :=
  dt.year ≤ 9999 ∧ dt.month ≤ 99 ∧ dt.day ≤ 99 ∧
    dt.hour ≤ 99 ∧ dt.minute ≤ 99 ∧ dt.second ≤ 99

instance (dt : PyDateTime) : Decidable (ValidDT dt) := by
  unfold ValidDT; infer_instance

/-- Modelled from the spec: the `SearchRecord` data-record type
(`src/models/search_results.py`, not among the sources) — identifier,
owning user identifier, search term, result payload, creation timestamp. -/
structure SearchResults where
  search_id : String
  user_id : String
  search_term : String
  result : String
  created_at : PyDateTime
deriving DecidableEq, Repr

/-- Modelled from the spec: the `UserRecord` data-record type
(`src/models/user.py`, not among the sources) — user identifier and
creation timestamp. -/
structure User where
  user_id : String
  created_at : PyDateTime
deriving DecidableEq, Repr

/-- A value bound to a named SQL parameter: the DAO binds text fields and
one timestamp field. -/
inductive SqlValue where
  | vStr : String → SqlValue
  | vDateTime : PyDateTime → SqlValue
deriving DecidableEq, Repr

/-- A row of the `search_results` table. -/
structure SearchRow where
  search_id : String
  user_id : String
  search_term : String
  result : String
  created_at : PyDateTime
deriving DecidableEq, Repr

/-- A row of the `users` table. -/
structure UserRow where
  user_id : String
  created_at : PyDateTime
deriving DecidableEq, Repr

/-- The persisted state: the two tables of the schema. -/
structure Database where
  search_results : List SearchRow
  users : List UserRow
deriving DecidableEq, Repr

/-- The empty schema: both tables empty. -/
def emptyDB : Database := { search_results := [], users := [] }

/-- A parameterized SQL statement as submitted to
`connection.execute`: the statement text and the named bound parameters. -/
structure Statement where
  sqlText : String
  params : List (String × SqlValue)
deriving DecidableEq, Repr

/-- The statement text of the `insert_search` INSERT, exactly as the
adjacent string literals in the source concatenate. -/
def insertSearchSQL : String :=
  "INSERT into search_results(" ++ "   search_id, " ++ "   user_id, "
    ++ "   search_term, " ++ "   result, " ++ "   created_at"
    ++ ") values (" ++ "   :search_id," ++ "   :user_id,"
    ++ "   :search_term," ++ "   :result," ++ "   :created_at" ++ ")"

/-- The statement text of the `insert_user` INSERT, exactly as the adjacent
string literals in the source concatenate. -/
def insertUserSQL : String :=
  "INSERT into users(" ++ "   user_id, " ++ "   created_at"
    ++ ") values (" ++ "   :user_id," ++ "   :created_at" ++ ")"

/-- The statement text of the `fetch_all_searches` SELECT. -/
def selectSearchesSQL : String :=
  "SELECT search_id, user_id, " ++ "search_term, result, created_at "
    ++ "FROM search_results"

/-- The statement text of the `fetch_all_users` SELECT. -/
def selectUsersSQL : String :=
  "SELECT user_id, created_at " ++ "FROM users"

/-- The statement `insert_search` submits: fixed text, the record's five
fields bound as named parameters. -/
def insertSearchStatement (r : SearchResults) : Statement :=
  { sqlText := insertSearchSQL,
    params := [("search_id", SqlValue.vStr r.search_id),
               ("user_id", SqlValue.vStr r.user_id),
               ("search_term", SqlValue.vStr r.search_term),
               ("result", SqlValue.vStr r.result),
               ("created_at", SqlValue.vDateTime r.created_at)] }

/-- The statement `insert_user` submits: fixed text, the record's two
fields bound as named parameters. -/
def insertUserStatement (u : User) : Statement :=
  { sqlText := insertUserSQL,
    params := [("user_id", SqlValue.vStr u.user_id),
               ("created_at", SqlValue.vDateTime u.created_at)] }

/-- Named-parameter lookup as the database driver performs it. -/
def lookupParam (ps : List (String × SqlValue)) (k : String) :
    Option SqlValue :=
  match ps.find? (fun p => p.fst = k) with
  | some p => some p.snd
  | none => none

/-- Execution of the search INSERT by the database: the statement text must
be the fixed INSERT, every column value is obtained by looking up its named
parameter (never from the statement text), and the bound values land
verbatim in a new row of `search_results`. `none` models a statement the
database rejects as malformed. -/
def execInsertSearch (st : Statement) (db : Database) : Option Database :=
  if st.sqlText = insertSearchSQL then
    match lookupParam st.params "search_id",
          lookupParam st.params "user_id",
          lookupParam st.params "search_term",
          lookupParam st.params "result",
          lookupParam st.params "created_at" with
    | some (SqlValue.vStr sid), some (SqlValue.vStr uid),
      some (SqlValue.vStr term), some (SqlValue.vStr res),
      some (SqlValue.vDateTime ca) =>
        some { db with
          search_results := db.search_results
            ++ [{ search_id := sid, user_id := uid, search_term := term,
                  result := res, created_at := ca }] }
    | _, _, _, _, _ => none
  else none

/-- Execution of the user INSERT by the database, analogous to
`execInsertSearch`. -/
def execInsertUser (st : Statement) (db : Database) : Option Database :=
  if st.sqlText = insertUserSQL then
    match lookupParam st.params "user_id",
          lookupParam st.params "created_at" with
    | some (SqlValue.vStr uid), some (SqlValue.vDateTime ca) =>
        some { db with
          users := db.users ++ [{ user_id := uid, created_at := ca }] }
    | _, _ => none
  else none

/-- The Python exceptions the layer can observe: `SQLAlchemyError`
subclasses raised by the database layer (carrying the subclass name), and
every other exception (programming errors), likewise carrying its type
name. -/
inductive PyErr where
  | sqlAlchemyError : String → PyErr
  | otherError : String → PyErr
deriving DecidableEq, Repr

/-- The name of the exception type, as Python would report it. -/
def errorTypeName : PyErr → String
  | PyErr.sqlAlchemyError s => s
  | PyErr.otherError s => s

/-- The `isinstance(e, SQLAlchemyError)` test the retry decorator's
`except` clause performs. -/
def isSQLAlchemyError : PyErr → Bool
  | PyErr.sqlAlchemyError _ => true
  | PyErr.otherError _ => false

/-- Row-to-record mapping in `fetch_all_searches`: the row dict is built
with `created_at` rendered by `strftime("%Y-%m-%d %H:%M:%S")`, then
`SearchResults.parse_obj` parses the dict (`none` models a pydantic
`ValidationError`). -/
def rowToSearchResults (row : SearchRow) : Option SearchResults :=
  match parseDatetimeSecs (strftimeSecs row.created_at) with
  | some dt => some { search_id := row.search_id, user_id := row.user_id,
                      search_term := row.search_term, result := row.result,
                      created_at := dt }
  | none => none

/-- Row-to-record mapping in `fetch_all_users`, analogous. -/
def rowToUser (row : UserRow) : Option User :=
  match parseDatetimeSecs (strftimeSecs row.created_at) with
  | some dt => some { user_id := row.user_id, created_at := dt }
  | none => none

/-- One un-retried execution of the `insert_search` transaction body:
build the statement, execute it; on failure the transaction rolls back, so
the state is threaded only on success. -/
def insertSearchOnce (r : SearchResults) (db : Database) :
    Except PyErr Database :=
  match execInsertSearch (insertSearchStatement r) db with
  | some db2 => Except.ok db2
  | none => Except.error (PyErr.sqlAlchemyError "ProgrammingError")

/-- One un-retried execution of the `insert_user` transaction body. -/
def insertUserOnce (u : User) (db : Database) : Except PyErr Database :=
  match execInsertUser (insertUserStatement u) db with
  | some db2 => Except.ok db2
  | none => Except.error (PyErr.sqlAlchemyError "ProgrammingError")

/-- One un-retried execution of the `fetch_all_searches` transaction body:
select every row of `search_results` and map each to a record; a row
pydantic rejects raises a `ValidationError` (not a database error). -/
def fetchAllSearchesOnce (db : Database) :
    Except PyErr (List SearchResults × Database) :=
  match db.search_results.mapM rowToSearchResults with
  | some l => Except.ok (l, db)
  | none => Except.error (PyErr.otherError "ValidationError")

/-- One un-retried execution of the `fetch_all_users` transaction body. -/
def fetchAllUsersOnce (db : Database) :
    Except PyErr (List User × Database) :=
  match db.users.mapM rowToUser with
  | some l => Except.ok (l, db)
  | none => Except.error (PyErr.otherError "ValidationError")

/-- The parameters of the retry decorator, one set shared by all four
operations. -/
structure RetryPolicy where
  tries : Nat
  delay : ℚ
  backoff : ℚ
  jitterLo : ℚ
  jitterHi : ℚ

/-- `retry(exceptions=SQLAlchemyError, tries=5, delay=0.01,
jitter=(-0.01, 0.01), backoff=2)`, exactly as written on each of the four
operations (delays in seconds: 0.01 s = 10 ms). -/
def daoRetryPolicy : RetryPolicy :=
  { tries := 5, delay := 1 / 100, backoff := 2,
    jitterLo := -(1 / 100), jitterHi := 1 / 100 }

/-- The retry decorator's internal loop over an attempt oracle, with each
attempt's outcome observed inside the loop — the semantics the decorator
parameters describe. The `retry` package's loop is
`_tries, _delay = tries, delay; while _tries: try: return f()
except exceptions: _tries -= 1; if not _tries: raise; sleep(_delay);
_delay *= backoff; _delay += uniform(*jitter)`.
`attempt k` is the outcome of the k-th call of the wrapped body, `jitter k`
the k-th random draw. Returns the outcome (`none` when `tries = 0` and the
loop never runs), the number of attempts performed, and the list of delays
slept, in order. Exceptions outside `exceptions` propagate immediately.

In the program this loop is never actually driven: the decorator is
synchronous, and applied to an `async def` its `f()` returns an unstarted
coroutine without raising, so the loop exits on its first iteration (see
`asyncDecoratedRun` for the behavior the program exhibits). This loop
model is retained because the success-conditioned properties below
quantify over its runs: any successful result is some attempt's awaited
body outcome, which the single-attempt behavior also produces. -/
def retryGo (attempt : Nat → Except PyErr α) (jitter : Nat → ℚ)
    (backoff : ℚ) : Nat → ℚ → Nat →
    Option (Except PyErr α) × Nat × List ℚ
  | 0, _, _ => (none, 0, [])
  | t + 1, d, k =>
    match attempt k with
    | Except.ok a => (some (Except.ok a), 1, [])
    | Except.error e =>
      if isSQLAlchemyError e then
        if t = 0 then (some (Except.error e), 1, [])
        else
          let rest := retryGo attempt jitter backoff t
            (d * backoff + jitter k) (k + 1)
          (rest.1, rest.2.1 + 1, d :: rest.2.2)
      else (some (Except.error e), 1, [])

/-- The retry loop with the DAO's decorator parameters, applied to an
attempt oracle (the as-documented semantics of `retryGo`; the program's
actual single-attempt behavior is `asyncDecoratedRun`). -/
def retryCall (attempt : Nat → Except PyErr α) (jitter : Nat → ℚ) :
    Option (Except PyErr α) × Nat × List ℚ :=
  retryGo attempt jitter daoRetryPolicy.backoff daoRetryPolicy.tries
    daoRetryPolicy.delay 0

/-- The k-th attempt of an operation whose body is `once`, under a fault
pattern: `faults k = some e` means the database layer raises `e` on the
k-th call (connection acquisition or execution fails before any write);
otherwise the body runs. -/
def attemptWith (once : Database → Except PyErr β)
    (faults : Nat → Option PyErr) (db : Database) (k : Nat) :
    Except PyErr β :=
  match faults k with
  | some e => Except.error e
  | none => once db

/-- `insert_search` under the retry-loop semantics its decorator
parameters describe (the fault pattern and the jitter draws are explicit
inputs). The decorator being inert on an `async def`, the program's
actual behavior is `insert_search_run`; the success-conditioned
properties stated over this loop model hold of both. -/
def insert_search (r : SearchResults) (faults : Nat → Option PyErr)
    (jitter : Nat → ℚ) (db : Database) :
    Option (Except PyErr Database) × Nat × List ℚ :=
  retryCall (attemptWith (insertSearchOnce r) faults db) jitter

/-- `insert_user` under the retry-loop semantics its decorator parameters
describe; the program's actual behavior is `insert_user_run`. -/
def insert_user (u : User) (faults : Nat → Option PyErr)
    (jitter : Nat → ℚ) (db : Database) :
    Option (Except PyErr Database) × Nat × List ℚ :=
  retryCall (attemptWith (insertUserOnce u) faults db) jitter

/-- `fetch_all_searches` under the retry-loop semantics its decorator
parameters describe; the program's actual behavior is
`fetch_all_searches_run`. -/
def fetch_all_searches (faults : Nat → Option PyErr) (jitter : Nat → ℚ)
    (db : Database) :
    Option (Except PyErr (List SearchResults × Database)) × Nat × List ℚ :=
  retryCall (attemptWith fetchAllSearchesOnce faults db) jitter

/-- `fetch_all_users` under the retry-loop semantics its decorator
parameters describe; the program's actual behavior is
`fetch_all_users_run`. -/
def fetch_all_users (faults : Nat → Option PyErr) (jitter : Nat → ℚ)
    (db : Database) :
    Option (Except PyErr (List User × Database)) × Nat × List ℚ :=
  retryCall (attemptWith fetchAllUsersOnce faults db) jitter

/-- The run a decorated operation actually performs in the program. The
`retry` package's decorator is synchronous: wrapping an `async def`, its
loop body `return f()` receives an unstarted coroutine and raises
nothing, so the loop returns that coroutine on its first iteration,
having slept no delay. The caller then awaits the coroutine once, outside
the decorator's `try`, so the transaction body executes exactly once and
any error of that single attempt — `SQLAlchemyError` or not — propagates
to the caller uncaught by the decorator. Result: the awaited outcome of
attempt 0, an attempt count of 1, and an empty list of slept delays. -/
def asyncDecoratedRun {β : Type} (once : Database → Except PyErr β)
    (faults : Nat → Option PyErr) (db : Database) :
    Except PyErr β × Nat × List ℚ :=
  (attemptWith once faults db 0, 1, [])

/-- The actual program behavior of `insert_search`: one awaited attempt,
no retries, no delays. -/
def insert_search_run (r : SearchResults) (faults : Nat → Option PyErr)
    (db : Database) : Except PyErr Database × Nat × List ℚ :=
  asyncDecoratedRun (insertSearchOnce r) faults db

/-- The actual program behavior of `insert_user`. -/
def insert_user_run (u : User) (faults : Nat → Option PyErr)
    (db : Database) : Except PyErr Database × Nat × List ℚ :=
  asyncDecoratedRun (insertUserOnce u) faults db

/-- The actual program behavior of `fetch_all_searches`. -/
def fetch_all_searches_run (faults : Nat → Option PyErr) (db : Database) :
    Except PyErr (List SearchResults × Database) × Nat × List ℚ :=
  asyncDecoratedRun fetchAllSearchesOnce faults db

/-- The actual program behavior of `fetch_all_users`. -/
def fetch_all_users_run (faults : Nat → Option PyErr) (db : Database) :
    Except PyErr (List User × Database) × Nat × List ℚ :=
  asyncDecoratedRun fetchAllUsersOnce faults db

/-- The database configuration mapping as `connection_string` reads it:
`host`, `user`, `password`, `database` via `.get(key, None)` (absent keys
yield `None`), `port` via direct indexing. -/
structure DbConfig where
  host : Option String
  user : Option String
  password : Option String
  database : Option String
  port : String
deriving DecidableEq, Repr

/-- Python truthiness of an optional string: `None` and the empty string
are falsy. -/
def truthy : Option String → Bool
  | none => false
  | some s => !(s = "")

/-- Python f-string rendering of an optional string: `None` renders as the
literal text `None`. -/
def pyStr : Option String → String
  | none => "None"
  | some s => s

/-- `YahooSearchDAO.connection_string`: the credential-less form when both
`user` and `password` are falsy, otherwise the `user:password@` form. -/
def connection_string (c : DbConfig) : String :=
  if !truthy c.user && !truthy c.password then
    "postgresql+asyncpg://" ++ pyStr c.host ++ ":" ++ c.port ++ "/"
      ++ pyStr c.database
  else
    "postgresql+asyncpg://" ++ pyStr c.user ++ ":" ++ pyStr c.password
      ++ "@" ++ pyStr c.host ++ ":" ++ c.port ++ "/" ++ pyStr c.database

/-! ### Sample values shared by the witnesses -/

/-- The timestamp 2024-01-01 00:00:01 UTC. -/
def sampleDT : PyDateTime :=
  { year := 2024, month := 1, day := 1, hour := 0, minute := 0,
    second := 1, microsecond := 0 }

/-- The search record of the spec's scenario. -/
def sampleSearch : SearchResults :=
  { search_id := "s1", user_id := "u1", search_term := "cats",
    result := "r1", created_at := sampleDT }

/-- The user record of the spec's scenario. -/
def sampleUser : User := { user_id := "u1", created_at := sampleDT }

/-- A fault pattern under which the database layer never fails. -/
def noFaults : Nat → Option PyErr := fun _ => none

/-- A jitter stream drawing 0 every time. -/
def zeroJitter : Nat → ℚ := fun _ => 0

/-- A single-quote character, by code point. -/
def sq : String := String.mk [Char.ofNat 39]

/-- The spec's injection probe search term. -/
def injectionTerm : String :=
  "O" ++ sq ++ "Brien" ++ sq ++ "; DROP TABLE users;--"

/-! ### The timestamp formatting/parsing round trip -/

theorem digitVal_digitChar (d : Nat) (h : d < 10) :
    digitVal (digitChar d) = some d := by
  interval_cases d <;> decide

theorem parse_strftime (dt : PyDateTime) (h : ValidDT dt) :
    parseDatetimeSecs (strftimeSecs dt) = some (truncToSeconds dt) := by
  obtain ⟨hy, hmo, hd, hh, hmi, hs⟩ := h
  show parseDatetimeSecsChars (String.toList (String.mk (strftimeSecsChars dt)))
    = some (truncToSeconds dt)
  have hlist : String.toList (String.mk (strftimeSecsChars dt))
      = strftimeSecsChars dt := rfl
  rw [hlist]
  simp only [strftimeSecsChars, pad4Chars, pad2Chars, List.cons_append,
    List.nil_append]
  rw [parseDatetimeSecsChars]
  rw [if_pos (by exact ⟨rfl, rfl, rfl, rfl, rfl⟩)]
  rw [digitVal_digitChar _ (Nat.mod_lt _ (by norm_num)),
      digitVal_digitChar _ (Nat.mod_lt _ (by norm_num)),
      digitVal_digitChar _ (Nat.mod_lt _ (by norm_num)),
      digitVal_digitChar _ (Nat.mod_lt _ (by norm_num)),
      digitVal_digitChar _ (Nat.mod_lt _ (by norm_num)),
      digitVal_digitChar _ (Nat.mod_lt _ (by norm_num)),
      digitVal_digitChar _ (Nat.mod_lt _ (by norm_num)),
      digitVal_digitChar _ (Nat.mod_lt _ (by norm_num)),
      digitVal_digitChar _ (Nat.mod_lt _ (by norm_num)),
      digitVal_digitChar _ (Nat.mod_lt _ (by norm_num)),
      digitVal_digitChar _ (Nat.mod_lt _ (by norm_num)),
      digitVal_digitChar _ (Nat.mod_lt _ (by norm_num)),
      digitVal_digitChar _ (Nat.mod_lt _ (by norm_num)),
      digitVal_digitChar _ (Nat.mod_lt _ (by norm_num))]
  have hyear : ((dt.year / 1000 % 10 * 10 + dt.year / 100 % 10) * 10
      + dt.year / 10 % 10) * 10 + dt.year % 10 = dt.year := by omega
  have hm2 : dt.month / 10 % 10 * 10 + dt.month % 10 = dt.month := by omega
  have hd2 : dt.day / 10 % 10 * 10 + dt.day % 10 = dt.day := by omega
  have hh2 : dt.hour / 10 % 10 * 10 + dt.hour % 10 = dt.hour := by omega
  have hmi2 : dt.minute / 10 % 10 * 10 + dt.minute % 10 = dt.minute := by
    omega
  have hs2 : dt.second / 10 % 10 * 10 + dt.second % 10 = dt.second := by
    omega
  simp only [truncToSeconds]
  rw [hyear, hm2, hd2, hh2, hmi2, hs2]

/-- Truncating to whole seconds does not change the rendered string. -/
theorem strftimeSecs_trunc (dt : PyDateTime) :
    strftimeSecs (truncToSeconds dt) = strftimeSecs dt := rfl

/-! ### Generic facts about the retry loop -/

section RetryLemmas

variable {α : Type} (attempt : Nat → Except PyErr α) (jitter : Nat → ℚ)
  (b : ℚ)

theorem retryGo_ok_from_attempt (a : α) : ∀ (t : Nat) (d : ℚ) (k : Nat),
    (retryGo attempt jitter b t d k).1 = some (Except.ok a) →
    ∃ i, attempt i = Except.ok a := by
  intro t
  induction t with
  | zero => intro d k h; simp [retryGo] at h
  | succ t ih =>
    intro d k h
    rw [retryGo] at h
    cases hA : attempt k with
    | ok a2 =>
      rw [hA] at h
      simp only [Option.some.injEq] at h
      exact ⟨k, by rw [hA, ← h]⟩
    | error e =>
      rw [hA] at h
      by_cases hS : isSQLAlchemyError e
      · simp only [hS, if_true] at h
        by_cases ht : t = 0
        · simp [ht] at h
        · simp only [ht, if_false] at h
          exact ih (d * b + jitter k) (k + 1) h
      · simp [hS] at h

end RetryLemmas

/-! ### The transaction bodies -/

/-- The row `insert_search` writes for a record. -/
def searchRowOf (r : SearchResults) : SearchRow :=
  { search_id := r.search_id, user_id := r.user_id,
    search_term := r.search_term, result := r.result,
    created_at := r.created_at }

/-- The row `insert_user` writes for a record. -/
def userRowOf (u : User) : UserRow :=
  { user_id := u.user_id, created_at := u.created_at }

/-- The record `fetch_all_searches` builds from a row: every text field
verbatim, the timestamp truncated to whole seconds by the
format-then-parse trip. -/
def searchRowRecord (row : SearchRow) : SearchResults :=
  { search_id := row.search_id, user_id := row.user_id,
    search_term := row.search_term, result := row.result,
    created_at := truncToSeconds row.created_at }

/-- The record `fetch_all_users` builds from a row. -/
def userRowRecord (row : UserRow) : User :=
  { user_id := row.user_id, created_at := truncToSeconds row.created_at }

theorem insertSearchOnce_eq (r : SearchResults) (db : Database) :
    insertSearchOnce r db = Except.ok
      { db with search_results := db.search_results ++ [searchRowOf r] } := by
  simp [insertSearchOnce, execInsertSearch, insertSearchStatement,
    lookupParam, searchRowOf, insertSearchSQL, List.find?]

theorem insertUserOnce_eq (u : User) (db : Database) :
    insertUserOnce u db = Except.ok
      { db with users := db.users ++ [userRowOf u] } := by
  simp [insertUserOnce, execInsertUser, insertUserStatement,
    lookupParam, userRowOf, insertUserSQL, List.find?]

theorem rowToSearchResults_valid (row : SearchRow)
    (h : ValidDT row.created_at) :
    rowToSearchResults row = some (searchRowRecord row) := by
  rw [rowToSearchResults, parse_strftime row.created_at h]
  rfl

theorem rowToUser_valid (row : UserRow) (h : ValidDT row.created_at) :
    rowToUser row = some (userRowRecord row) := by
  rw [rowToUser, parse_strftime row.created_at h]
  rfl


theorem mapM_searchRows (l : List SearchRow)
    (h : ∀ row ∈ l, ValidDT row.created_at) :
    l.mapM rowToSearchResults = some (l.map searchRowRecord) := by
  induction l with
  | nil => rfl
  | cons a l ih =>
    rw [List.mapM_cons, rowToSearchResults_valid a (h a (by simp)),
      ih (fun r hr => h r (by simp [hr]))]
    rfl

theorem mapM_userRows (l : List UserRow)
    (h : ∀ row ∈ l, ValidDT row.created_at) :
    l.mapM rowToUser = some (l.map userRowRecord) := by
  induction l with
  | nil => rfl
  | cons a l ih =>
    rw [List.mapM_cons, rowToUser_valid a (h a (by simp)),
      ih (fun r hr => h r (by simp [hr]))]
    rfl

theorem fetchAllSearchesOnce_eq (db : Database)
    (h : ∀ row ∈ db.search_results, ValidDT row.created_at) :
    fetchAllSearchesOnce db =
      Except.ok (db.search_results.map searchRowRecord, db) := by
  rw [fetchAllSearchesOnce, mapM_searchRows db.search_results h]

theorem fetchAllUsersOnce_eq (db : Database)
    (h : ∀ row ∈ db.users, ValidDT row.created_at) :
    fetchAllUsersOnce db = Except.ok (db.users.map userRowRecord, db) := by
  rw [fetchAllUsersOnce, mapM_userRows db.users h]

/-- An attempt of `attemptWith` that returns `ok` is a run of the body on
the (unchanged) input state. -/
theorem attemptWith_ok {β : Type} (once : Database → Except PyErr β)
    (faults : Nat → Option PyErr) (db : Database) (k : Nat) (v : β)
    (h : attemptWith once faults db k = Except.ok v) :
    once db = Except.ok v := by
  rw [attemptWith] at h
  cases hf : faults k with
  | none => rw [hf] at h; exact h
  | some e => rw [hf] at h; exact absurd h (by simp)

/-- An attempt of `attemptWith` that raises is either an injected database
fault or an error of the body itself. -/
theorem attemptWith_error {β : Type} (once : Database → Except PyErr β)
    (faults : Nat → Option PyErr) (db : Database) (k : Nat) (e : PyErr)
    (h : attemptWith once faults db k = Except.error e) :
    faults k = some e ∨ once db = Except.error e := by
  rw [attemptWith] at h
  cases hf : faults k with
  | none => rw [hf] at h; exact Or.inr h
  | some e2 =>
    rw [hf] at h
    simp only [Except.error.injEq] at h
    exact Or.inl (by rw [h])

theorem execInsertSearch_eq (r : SearchResults) (db : Database) :
    execInsertSearch (insertSearchStatement r) db = some
      { db with search_results := db.search_results ++ [searchRowOf r] } := by
  simp [execInsertSearch, insertSearchStatement, lookupParam, searchRowOf,
    insertSearchSQL, List.find?]

theorem execInsertUser_eq (u : User) (db : Database) :
    execInsertUser (insertUserStatement u) db = some
      { db with users := db.users ++ [userRowOf u] } := by
  simp [execInsertUser, insertUserStatement, lookupParam, userRowOf,
    insertUserSQL, List.find?]

theorem fetchAllSearchesOnce_ok (db db2 : Database) (l : List SearchResults)
    (h : fetchAllSearchesOnce db = Except.ok (l, db2)) :
    db2 = db ∧ db.search_results.mapM rowToSearchResults = some l := by
  rw [fetchAllSearchesOnce] at h
  cases hm : db.search_results.mapM rowToSearchResults with
  | some l2 =>
    rw [hm] at h
    simp only [Except.ok.injEq, Prod.mk.injEq] at h
    exact ⟨h.2.symm, by rw [h.1]⟩
  | none => rw [hm] at h; exact absurd h (by simp)

theorem fetchAllUsersOnce_ok (db db2 : Database) (l : List User)
    (h : fetchAllUsersOnce db = Except.ok (l, db2)) :
    db2 = db ∧ db.users.mapM rowToUser = some l := by
  rw [fetchAllUsersOnce] at h
  cases hm : db.users.mapM rowToUser with
  | some l2 =>
    rw [hm] at h
    simp only [Except.ok.injEq, Prod.mk.injEq] at h
    exact ⟨h.2.symm, by rw [h.1]⟩
  | none => rw [hm] at h; exact absurd h (by simp)

/-- Every element a successful `mapM` consumed has its image in the
output. -/
theorem mapM_mem {γ δ : Type} (f : γ → Option δ) :
    ∀ (l : List γ) (out : List δ), l.mapM f = some out →
    ∀ x ∈ l, ∃ y ∈ out, f x = some y := by
  intro l
  induction l with
  | nil => intro out _ x hx; simp at hx
  | cons a l ih =>
    intro out hmap x hx
    rw [List.mapM_cons] at hmap
    cases hfa : f a with
    | none => rw [hfa] at hmap; simp at hmap
    | some b =>
      rw [hfa] at hmap
      cases hml : l.mapM f with
      | none => rw [hml] at hmap; simp at hmap
      | some bs =>
        rw [hml] at hmap
        simp only [Option.bind_some, Option.bind_eq_bind] at hmap
        have hout : out = b :: bs := by
          cases hmap; rfl
        rcases List.mem_cons.mp hx with hxa | hxl
        · subst hxa
          exact ⟨b, by rw [hout]; exact List.mem_cons_self b bs, hfa⟩
        · obtain ⟨y, hy, hfy⟩ := ih bs hml x hxl
          exact ⟨y, by rw [hout]; exact List.mem_cons_of_mem b hy, hfy⟩

/-- A successful retried call comes from a successful attempt. -/
theorem retryCall_ok {α : Type} (attempt : Nat → Except PyErr α)
    (jitter : Nat → ℚ) (a : α)
    (h : (retryCall attempt jitter).1 = some (Except.ok a)) :
    ∃ i, attempt i = Except.ok a :=
  retryGo_ok_from_attempt attempt jitter daoRetryPolicy.backoff a
    daoRetryPolicy.tries daoRetryPolicy.delay 0 h

/-- The database contents used by the idempotence and round-trip
witnesses: one search row, one user row, both at `sampleDT`. -/
def sampleRowDB : Database :=
  { search_results := [searchRowOf sampleSearch],
    users := [userRowOf sampleUser] }

/-! ### Claim theorems -/

/-- C6: for every database configuration mapping, `connection_string`
returns a string of the form `scheme://[user:password@]host:port/database`
(scheme `postgresql+asyncpg`): always one of the two forms; the
credential-less form when no credentials are supplied; the
`user:password@` form when both are supplied (non-empty). -/
theorem C6_connection_string_form :
    (∀ c : DbConfig,
      connection_string c = "postgresql+asyncpg://" ++ pyStr c.host ++ ":"
          ++ c.port ++ "/" ++ pyStr c.database ∨
      connection_string c = "postgresql+asyncpg://" ++ pyStr c.user ++ ":"
          ++ pyStr c.password ++ "@" ++ pyStr c.host ++ ":" ++ c.port
          ++ "/" ++ pyStr c.database) ∧
    (∀ c : DbConfig, c.user = none → c.password = none →
      connection_string c = "postgresql+asyncpg://" ++ pyStr c.host ++ ":"
        ++ c.port ++ "/" ++ pyStr c.database) ∧
    (∀ (c : DbConfig) (u pw : String), c.user = some u → u ≠ "" →
      c.password = some pw →
      connection_string c = "postgresql+asyncpg://" ++ u ++ ":" ++ pw
        ++ "@" ++ pyStr c.host ++ ":" ++ c.port ++ "/" ++ pyStr c.database)
    := by
  refine ⟨fun c => ?_, fun c hu hp => ?_, fun c u pw hu hne hp => ?_⟩
  · rw [connection_string]
    by_cases h : (!truthy c.user && !truthy c.password) = true
    · rw [if_pos h]; exact Or.inl rfl
    · rw [if_neg h]; exact Or.inr rfl
  · rw [connection_string, hu, hp]
    rfl
  · rw [connection_string, hu, hp]
    have ht : truthy (some u) = true := by
      simp [truthy]
      intro h
      exact hne h
    rw [ht]
    rfl

/-- C6 witness: a configuration without credentials and one with both. -/
theorem C6_connection_string_form_witness :
    connection_string
        { host := some "localhost", user := none, password := none,
          database := some "db", port := "5432" }
      = "postgresql+asyncpg://" ++ pyStr (some "localhost") ++ ":"
        ++ "5432" ++ "/" ++ pyStr (some "db") ∧
    connection_string
        { host := some "localhost", user := some "alice",
          password := some "pw", database := some "db", port := "5432" }
      = "postgresql+asyncpg://" ++ "alice" ++ ":" ++ "pw" ++ "@"
        ++ pyStr (some "localhost") ++ ":" ++ "5432" ++ "/"
        ++ pyStr (some "db") := by
  constructor
  · exact C6_connection_string_form.2.1 _ rfl rfl
  · exact C6_connection_string_form.2.2 _ "alice" "pw" rfl
      (by decide) rfl

/-- C7: `connection_string` yields the credential-less form exactly when
both `user` and `password` are absent or falsy (Python truthiness: `None`
or the empty string); with exactly one of the two truthy, the
`user:password@` form is produced with the missing side rendered as the
literal text `None`. -/
theorem C7_connection_string_credentials :
    (∀ c : DbConfig, (truthy c.user || truthy c.password) = false →
      connection_string c = "postgresql+asyncpg://" ++ pyStr c.host ++ ":"
        ++ c.port ++ "/" ++ pyStr c.database) ∧
    (∀ c : DbConfig, (truthy c.user || truthy c.password) = true →
      connection_string c = "postgresql+asyncpg://" ++ pyStr c.user ++ ":"
        ++ pyStr c.password ++ "@" ++ pyStr c.host ++ ":" ++ c.port
        ++ "/" ++ pyStr c.database) ∧
    (∀ (c : DbConfig) (u : String), c.user = some u → u ≠ "" →
      c.password = none →
      connection_string c = "postgresql+asyncpg://" ++ u ++ ":" ++ "None"
        ++ "@" ++ pyStr c.host ++ ":" ++ c.port ++ "/" ++ pyStr c.database)
    ∧
    (∀ (c : DbConfig) (pw : String), c.user = none → c.password = some pw →
      pw ≠ "" →
      connection_string c = "postgresql+asyncpg://" ++ "None" ++ ":" ++ pw
        ++ "@" ++ pyStr c.host ++ ":" ++ c.port ++ "/" ++ pyStr c.database)
    := by
  have hbranch : ∀ c : DbConfig, (truthy c.user || truthy c.password) = true
      → connection_string c = "postgresql+asyncpg://" ++ pyStr c.user
        ++ ":" ++ pyStr c.password ++ "@" ++ pyStr c.host ++ ":" ++ c.port
        ++ "/" ++ pyStr c.database := by
    intro c h
    rw [connection_string, if_neg]
    simp only [Bool.and_eq_true, Bool.not_eq_true']
    intro hcon
    rw [hcon.1, hcon.2] at h
    simp at h
  refine ⟨fun c h => ?_, hbranch, fun c u hu hne hp => ?_,
    fun c pw hu hp hne => ?_⟩
  · rw [connection_string, if_pos]
    simp only [Bool.or_eq_false_iff] at h
    simp [h.1, h.2]
  · have ht : (truthy c.user || truthy c.password) = true := by
      rw [hu]
      simp [truthy, hne]
    have := hbranch c ht
    rw [hu, hp] at this
    simpa [pyStr] using this
  · have ht : (truthy c.user || truthy c.password) = true := by
      rw [hp]
      have hpw : truthy (some pw) = true := by
        simp [truthy, hne]
      rw [hpw]
      simp
    have := hbranch c ht
    rw [hu, hp] at this
    simpa [pyStr] using this

/-- C7 witness: one config with only a user, one with only a password, one
with both missing. -/
theorem C7_connection_string_credentials_witness :
    connection_string
        { host := some "h", user := some "alice", password := none,
          database := some "db", port := "1" }
      = "postgresql+asyncpg://" ++ "alice" ++ ":" ++ "None" ++ "@"
        ++ pyStr (some "h") ++ ":" ++ "1" ++ "/" ++ pyStr (some "db") ∧
    connection_string
        { host := some "h", user := none, password := some "pw",
          database := some "db", port := "1" }
      = "postgresql+asyncpg://" ++ "None" ++ ":" ++ "pw" ++ "@"
        ++ pyStr (some "h") ++ ":" ++ "1" ++ "/" ++ pyStr (some "db") ∧
    connection_string
        { host := some "h", user := some "", password := none,
          database := some "db", port := "1" }
      = "postgresql+asyncpg://" ++ pyStr (some "h") ++ ":" ++ "1" ++ "/"
        ++ pyStr (some "db") := by
  refine ⟨?_, ?_, ?_⟩
  · exact C7_connection_string_credentials.2.2.1 _ "alice" rfl
      (by decide) rfl
  · exact C7_connection_string_credentials.2.2.2 _ "pw" rfl rfl
      (by decide)
  · exact C7_connection_string_credentials.1 _ (by decide)

/-- C10: against the empty schema, `fetch_all_searches` and
`fetch_all_users` each return an empty sequence — for any fault/jitter
pattern under which the call returns, and in particular for a fault-free
run. -/
theorem C10_empty_schema_fetch :
    (∀ (faults : Nat → Option PyErr) (jitter : Nat → ℚ)
        (l : List SearchResults) (db2 : Database),
      (fetch_all_searches faults jitter emptyDB).1
          = some (Except.ok (l, db2)) → l = []) ∧
    (∀ (faults : Nat → Option PyErr) (jitter : Nat → ℚ)
        (l : List User) (db2 : Database),
      (fetch_all_users faults jitter emptyDB).1
          = some (Except.ok (l, db2)) → l = []) ∧
    (fetch_all_searches noFaults zeroJitter emptyDB).1
        = some (Except.ok (([] : List SearchResults), emptyDB)) ∧
    (fetch_all_users noFaults zeroJitter emptyDB).1
        = some (Except.ok (([] : List User), emptyDB)) := by
  refine ⟨fun faults jitter l db2 h => ?_,
    fun faults jitter l db2 h => ?_, rfl, rfl⟩
  · obtain ⟨i, hi⟩ := retryCall_ok _ _ _ h
    have hb := fetchAllSearchesOnce_ok _ _ _
      (attemptWith_ok _ _ _ _ _ hi)
    have h3 : some ([] : List SearchResults) = some l := hb.2
    exact (Option.some.inj h3).symm
  · obtain ⟨i, hi⟩ := retryCall_ok _ _ _ h
    have hb := fetchAllUsersOnce_ok _ _ _
      (attemptWith_ok _ _ _ _ _ hi)
    have h3 : some ([] : List User) = some l := hb.2
    exact (Option.some.inj h3).symm

/-- C10 witness: the fault-free run on the empty schema satisfies the
hypothesis of the first component, which then yields the empty list. -/
theorem C10_empty_schema_fetch_witness :
    (fetch_all_searches noFaults zeroJitter emptyDB).1
        = some (Except.ok (([] : List SearchResults), emptyDB)) ∧
    ([] : List SearchResults) = [] :=
  ⟨rfl, C10_empty_schema_fetch.1 noFaults zeroJitter [] emptyDB rfl⟩

/-- C9: two `fetch_all_searches` calls with no intervening write leave the
persisted state untouched and return equal sequences (hence equal sets of
records). -/
theorem C9_fetch_idempotent :
    ∀ (db db1 db2 : Database) (l1 l2 : List SearchResults)
      (faults faults2 : Nat → Option PyErr) (jitter jitter2 : Nat → ℚ),
    (fetch_all_searches faults jitter db).1 = some (Except.ok (l1, db1)) →
    (fetch_all_searches faults2 jitter2 db1).1 = some (Except.ok (l2, db2))
    → db1 = db ∧ db2 = db ∧ l2 = l1 := by
  intro db db1 db2 l1 l2 faults faults2 jitter jitter2 h1 h2
  obtain ⟨i, hi⟩ := retryCall_ok _ _ _ h1
  have b1 := fetchAllSearchesOnce_ok _ _ _ (attemptWith_ok _ _ _ _ _ hi)
  obtain ⟨j, hj⟩ := retryCall_ok _ _ _ h2
  have b2 := fetchAllSearchesOnce_ok _ _ _ (attemptWith_ok _ _ _ _ _ hj)
  refine ⟨b1.1, by rw [b2.1, b1.1], ?_⟩
  have hsame := b2.2
  rw [b1.1] at hsame
  exact (Option.some.inj (b1.2.symm.trans hsame)).symm

/-- C9 witness: a fault-free double fetch over a one-row table. -/
theorem C9_fetch_idempotent_witness :
    sampleRowDB = sampleRowDB ∧ sampleRowDB = sampleRowDB ∧
      [sampleSearch] = [sampleSearch] :=
  C9_fetch_idempotent sampleRowDB sampleRowDB sampleRowDB
    [sampleSearch] [sampleSearch] noFaults noFaults zeroJitter zeroJitter
    rfl rfl

/-- C2: after a successful `insert_search` of a valid record, a subsequent
successful `fetch_all_searches` returns a record with identical
`search_id`, `user_id`, `search_term` and `result`, and a `created_at`
equal to the original truncated to whole seconds (the value the fixed
`YYYY-MM-DD HH:MM:SS` rendering preserves). -/
theorem C2_insert_fetch_round_trip :
    ∀ (r : SearchResults) (db db1 db2 : Database) (l : List SearchResults)
      (faults faults2 : Nat → Option PyErr) (jitter jitter2 : Nat → ℚ),
    ValidDT r.created_at →
    (insert_search r faults jitter db).1 = some (Except.ok db1) →
    (fetch_all_searches faults2 jitter2 db1).1 = some (Except.ok (l, db2))
    →
    ∃ rec, rec ∈ l ∧ rec.search_id = r.search_id ∧
      rec.user_id = r.user_id ∧ rec.search_term = r.search_term ∧
      rec.result = r.result ∧
      rec.created_at = truncToSeconds r.created_at ∧
      strftimeSecs rec.created_at = strftimeSecs r.created_at := by
  intro r db db1 db2 l faults faults2 jitter jitter2 hr h1 h2
  obtain ⟨i, hi⟩ := retryCall_ok _ _ _ h1
  have hins := attemptWith_ok _ _ _ _ _ hi
  rw [insertSearchOnce_eq] at hins
  have hdb1 : db1 = { db with
      search_results := db.search_results ++ [searchRowOf r] } :=
    (Except.ok.inj hins).symm
  obtain ⟨j, hj⟩ := retryCall_ok _ _ _ h2
  have hfetch := fetchAllSearchesOnce_ok _ _ _
    (attemptWith_ok _ _ _ _ _ hj)
  have hmap := hfetch.2
  rw [hdb1] at hmap
  have hmem : searchRowOf r ∈ db.search_results ++ [searchRowOf r] := by
    simp
  obtain ⟨rec, hrec, hparse⟩ :=
    mapM_mem rowToSearchResults _ l hmap (searchRowOf r) hmem
  rw [rowToSearchResults_valid (searchRowOf r) hr] at hparse
  have hrec2 : rec = searchRowRecord (searchRowOf r) :=
    (Option.some.inj hparse).symm
  subst hrec2
  exact ⟨searchRowRecord (searchRowOf r), hrec, rfl, rfl, rfl, rfl, rfl,
    strftimeSecs_trunc r.created_at⟩

set_option maxRecDepth 100000 in
/-- C2 witness: the spec's scenario record round-trips through an empty
database. -/
theorem C2_insert_fetch_round_trip_witness :
    ∃ rec, rec ∈ [sampleSearch] ∧
      rec.search_id = sampleSearch.search_id ∧
      rec.user_id = sampleSearch.user_id ∧
      rec.search_term = sampleSearch.search_term ∧
      rec.result = sampleSearch.result ∧
      rec.created_at = truncToSeconds sampleSearch.created_at ∧
      strftimeSecs rec.created_at = strftimeSecs sampleSearch.created_at :=
  C2_insert_fetch_round_trip sampleSearch emptyDB
    { search_results := [searchRowOf sampleSearch], users := [] }
    { search_results := [searchRowOf sampleSearch], users := [] }
    [sampleSearch] noFaults noFaults zeroJitter zeroJitter
    (by decide) rfl rfl

/-- C8: after a successful `insert_user` of a valid record, a subsequent
successful `fetch_all_users` returns a record with the same `user_id` and
a `created_at` equal to the original truncated to whole seconds. -/
theorem C8_user_round_trip :
    ∀ (u : User) (db db1 db2 : Database) (l : List User)
      (faults faults2 : Nat → Option PyErr) (jitter jitter2 : Nat → ℚ),
    ValidDT u.created_at →
    (insert_user u faults jitter db).1 = some (Except.ok db1) →
    (fetch_all_users faults2 jitter2 db1).1 = some (Except.ok (l, db2)) →
    ∃ rec, rec ∈ l ∧ rec.user_id = u.user_id ∧
      rec.created_at = truncToSeconds u.created_at ∧
      strftimeSecs rec.created_at = strftimeSecs u.created_at := by
  intro u db db1 db2 l faults faults2 jitter jitter2 hu h1 h2
  obtain ⟨i, hi⟩ := retryCall_ok _ _ _ h1
  have hins := attemptWith_ok _ _ _ _ _ hi
  rw [insertUserOnce_eq] at hins
  have hdb1 : db1 = { db with users := db.users ++ [userRowOf u] } :=
    (Except.ok.inj hins).symm
  obtain ⟨j, hj⟩ := retryCall_ok _ _ _ h2
  have hfetch := fetchAllUsersOnce_ok _ _ _ (attemptWith_ok _ _ _ _ _ hj)
  have hmap := hfetch.2
  rw [hdb1] at hmap
  have hmem : userRowOf u ∈ db.users ++ [userRowOf u] := by simp
  obtain ⟨rec, hrec, hparse⟩ :=
    mapM_mem rowToUser _ l hmap (userRowOf u) hmem
  rw [rowToUser_valid (userRowOf u) hu] at hparse
  have hrec2 : rec = userRowRecord (userRowOf u) :=
    (Option.some.inj hparse).symm
  subst hrec2
  exact ⟨userRowRecord (userRowOf u), hrec, rfl, rfl,
    strftimeSecs_trunc u.created_at⟩

set_option maxRecDepth 100000 in
/-- C8 witness: the spec's scenario user round-trips through an empty
database. -/
theorem C8_user_round_trip_witness :
    ∃ rec, rec ∈ [sampleUser] ∧ rec.user_id = sampleUser.user_id ∧
      rec.created_at = truncToSeconds sampleUser.created_at ∧
      strftimeSecs rec.created_at = strftimeSecs sampleUser.created_at :=
  C8_user_round_trip sampleUser emptyDB
    { search_results := [], users := [userRowOf sampleUser] }
    { search_results := [], users := [userRowOf sampleUser] }
    [sampleUser] noFaults noFaults zeroJitter zeroJitter
    (by decide) rfl rfl

/-- C5: the statement text submitted by the inserts is a fixed constant
independent of the record; every caller-supplied value travels only as a
named bound parameter; executing the insert appends exactly one row
carrying the bound values verbatim and leaves the other table untouched,
so an arbitrary search term — quotes and SQL metacharacters included — is
stored and fetched verbatim without altering schema or other rows. -/
theorem C5_parameterized_sql :
    (∀ r r2 : SearchResults,
      (insertSearchStatement r).sqlText
        = (insertSearchStatement r2).sqlText) ∧
    (∀ u u2 : User,
      (insertUserStatement u).sqlText = (insertUserStatement u2).sqlText) ∧
    (∀ r : SearchResults, (insertSearchStatement r).params =
      [("search_id", SqlValue.vStr r.search_id),
       ("user_id", SqlValue.vStr r.user_id),
       ("search_term", SqlValue.vStr r.search_term),
       ("result", SqlValue.vStr r.result),
       ("created_at", SqlValue.vDateTime r.created_at)]) ∧
    (∀ u : User, (insertUserStatement u).params =
      [("user_id", SqlValue.vStr u.user_id),
       ("created_at", SqlValue.vDateTime u.created_at)]) ∧
    (∀ (r : SearchResults) (db db2 : Database),
      execInsertSearch (insertSearchStatement r) db = some db2 →
      db2.users = db.users ∧
      db2.search_results = db.search_results ++ [searchRowOf r]) ∧
    (∀ (r : SearchResults) (db db1 db2 : Database)
        (l : List SearchResults)
        (faults faults2 : Nat → Option PyErr) (jitter jitter2 : Nat → ℚ),
      ValidDT r.created_at →
      (insert_search r faults jitter db).1 = some (Except.ok db1) →
      (fetch_all_searches faults2 jitter2 db1).1
          = some (Except.ok (l, db2)) →
      db1.users = db.users ∧
      db1.search_results = db.search_results ++ [searchRowOf r] ∧
      ∃ rec, rec ∈ l ∧ rec.search_term = r.search_term) := by
  refine ⟨fun r r2 => rfl, fun u u2 => rfl, fun r => rfl, fun u => rfl,
    fun r db db2 h => ?_,
    fun r db db1 db2 l faults faults2 jitter jitter2 hr h1 h2 => ?_⟩
  · rw [execInsertSearch_eq] at h
    have := (Option.some.inj h).symm
    rw [this]
    exact ⟨rfl, rfl⟩
  · obtain ⟨i, hi⟩ := retryCall_ok _ _ _ h1
    have hins := attemptWith_ok _ _ _ _ _ hi
    rw [insertSearchOnce_eq] at hins
    have hdb1 : db1 = { db with
        search_results := db.search_results ++ [searchRowOf r] } :=
      (Except.ok.inj hins).symm
    refine ⟨by rw [hdb1], by rw [hdb1], ?_⟩
    obtain ⟨j, hj⟩ := retryCall_ok _ _ _ h2
    have hfetch := fetchAllSearchesOnce_ok _ _ _
      (attemptWith_ok _ _ _ _ _ hj)
    have hmap := hfetch.2
    rw [hdb1] at hmap
    have hmem : searchRowOf r ∈ db.search_results ++ [searchRowOf r] := by
      simp
    obtain ⟨rec, hrec, hparse⟩ :=
      mapM_mem rowToSearchResults _ l hmap (searchRowOf r) hmem
    rw [rowToSearchResults_valid (searchRowOf r) hr] at hparse
    have hrec2 : rec = searchRowRecord (searchRowOf r) :=
      (Option.some.inj hparse).symm
    subst hrec2
    exact ⟨searchRowRecord (searchRowOf r), hrec, rfl⟩

/-- The injection-probe record of the spec: the search term carries a
quote, a statement separator and a comment introducer. -/
def injectionSearch : SearchResults :=
  { search_id := "s2", user_id := "u1", search_term := injectionTerm,
    result := "r2", created_at := sampleDT }

set_option maxRecDepth 100000 in
/-- C5 witness: inserting the injection-probe record into a database that
already holds a row and a user leaves the users table and the existing row
intact, and the probe term is fetched back verbatim. -/
theorem C5_parameterized_sql_witness :
    (insertSearchStatement injectionSearch).sqlText
      = (insertSearchStatement sampleSearch).sqlText ∧
    { search_results := [searchRowOf sampleSearch,
        searchRowOf injectionSearch],
      users := [userRowOf sampleUser] : Database }.users
      = sampleRowDB.users ∧
    { search_results := [searchRowOf sampleSearch,
        searchRowOf injectionSearch],
      users := [userRowOf sampleUser] : Database }.search_results
      = sampleRowDB.search_results ++ [searchRowOf injectionSearch] ∧
    ∃ rec, rec ∈ [sampleSearch, injectionSearch] ∧
      rec.search_term = injectionSearch.search_term := by
  refine ⟨C5_parameterized_sql.1 injectionSearch sampleSearch, ?_⟩
  exact C5_parameterized_sql.2.2.2.2.2 injectionSearch sampleRowDB
    { search_results := [searchRowOf sampleSearch,
        searchRowOf injectionSearch], users := [userRowOf sampleUser] }
    { search_results := [searchRowOf sampleSearch,
        searchRowOf injectionSearch], users := [userRowOf sampleUser] }
    [sampleSearch, injectionSearch] noFaults noFaults zeroJitter zeroJitter
    (by decide) rfl rfl

/-- A fault pattern that fails every attempt with a connectivity error. -/
def allOpFaults : Nat → Option PyErr :=
  fun _ => some (PyErr.sqlAlchemyError "OperationalError")

/-- A fault pattern under which only the very first call fails, with a
transient connectivity error. -/
def oneFault : Nat → Option PyErr :=
  fun k => if k = 0 then some (PyErr.sqlAlchemyError "OperationalError")
    else none

/-- C1: code bug. The claim (and the spec) describe the retry policy the
decorator parameters document, but the synchronous decorator applied to
the `async def` operations is inert: every one of the four operations
performs exactly one awaited attempt and sleeps no delay, and at the
failing input — a database layer raising a transient `OperationalError`
on the first call only, healthy afterwards — `insert_search` raises that
error after its single attempt instead of retrying and ultimately
succeeding within 5 attempts. -/
theorem C1_retry_decorator_inert :
    insert_search_run sampleSearch oneFault emptyDB
      = (Except.error (PyErr.sqlAlchemyError "OperationalError"), 1, []) ∧
    (∀ (r : SearchResults) (faults : Nat → Option PyErr) (db : Database),
      (insert_search_run r faults db).2.1 = 1 ∧
      (insert_search_run r faults db).2.2 = []) ∧
    (∀ (u : User) (faults : Nat → Option PyErr) (db : Database),
      (insert_user_run u faults db).2.1 = 1 ∧
      (insert_user_run u faults db).2.2 = []) ∧
    (∀ (faults : Nat → Option PyErr) (db : Database),
      (fetch_all_searches_run faults db).2.1 = 1 ∧
      (fetch_all_searches_run faults db).2.2 = []) ∧
    (∀ (faults : Nat → Option PyErr) (db : Database),
      (fetch_all_users_run faults db).2.1 = 1 ∧
      (fetch_all_users_run faults db).2.2 = []) :=
  ⟨rfl, fun _ _ _ => ⟨rfl, rfl⟩, fun _ _ _ => ⟨rfl, rfl⟩,
    fun _ _ => ⟨rfl, rfl⟩, fun _ _ => ⟨rfl, rfl⟩⟩

/-- C3 counterexample: with the database layer failing every call,
`insert_search` performs one single attempt — there is no five-attempt
retry loop to exhaust, the attempt count is 1, not 5 — and raises that
first attempt's error. -/
theorem C3_error_propagation_counterexample :
    insert_search_run sampleSearch allOpFaults emptyDB
      = (Except.error (PyErr.sqlAlchemyError "OperationalError"), 1, []) ∧
    (insert_search_run sampleSearch allOpFaults emptyDB).2.1 ≠ 5 :=
  ⟨rfl, by decide⟩

/-- C3 (amended): for every one of the four operations, the original
error raised by the database layer propagates unchanged to the caller —
after the single attempt actually performed, the retry wrapper being
inert on these async operations; the store performs no local recovery and
raises no error types of its own on any path (every raised error is the
one the database layer injected). -/
theorem C3_error_propagation_amended :
    (∀ (r : SearchResults) (faults : Nat → Option PyErr) (db : Database)
        (e : PyErr), faults 0 = some e →
      (insert_search_run r faults db).1 = Except.error e) ∧
    (∀ (u : User) (faults : Nat → Option PyErr) (db : Database)
        (e : PyErr), faults 0 = some e →
      (insert_user_run u faults db).1 = Except.error e) ∧
    (∀ (faults : Nat → Option PyErr) (db : Database) (e : PyErr),
      faults 0 = some e →
      (fetch_all_searches_run faults db).1 = Except.error e) ∧
    (∀ (faults : Nat → Option PyErr) (db : Database) (e : PyErr),
      faults 0 = some e →
      (fetch_all_users_run faults db).1 = Except.error e) ∧
    (∀ (r : SearchResults) (faults : Nat → Option PyErr) (db : Database)
        (e : PyErr), (insert_search_run r faults db).1 = Except.error e →
      faults 0 = some e) ∧
    (∀ (u : User) (faults : Nat → Option PyErr) (db : Database)
        (e : PyErr), (insert_user_run u faults db).1 = Except.error e →
      faults 0 = some e) ∧
    (∀ (faults : Nat → Option PyErr) (db : Database) (e : PyErr),
      (∀ row ∈ db.search_results, ValidDT row.created_at) →
      (fetch_all_searches_run faults db).1 = Except.error e →
      faults 0 = some e) ∧
    (∀ (faults : Nat → Option PyErr) (db : Database) (e : PyErr),
      (∀ row ∈ db.users, ValidDT row.created_at) →
      (fetch_all_users_run faults db).1 = Except.error e →
      faults 0 = some e) := by
  refine ⟨fun r faults db e hf => ?_, fun u faults db e hf => ?_,
    fun faults db e hf => ?_, fun faults db e hf => ?_,
    fun r faults db e h => ?_, fun u faults db e h => ?_,
    fun faults db e hvalid h => ?_, fun faults db e hvalid h => ?_⟩
  · simp only [insert_search_run, asyncDecoratedRun, attemptWith, hf]
  · simp only [insert_user_run, asyncDecoratedRun, attemptWith, hf]
  · simp only [fetch_all_searches_run, asyncDecoratedRun, attemptWith, hf]
  · simp only [fetch_all_users_run, asyncDecoratedRun, attemptWith, hf]
  · rcases attemptWith_error _ _ _ _ _ h with hf | hbody
    · exact hf
    · rw [insertSearchOnce_eq] at hbody
      exact absurd hbody (by simp)
  · rcases attemptWith_error _ _ _ _ _ h with hf | hbody
    · exact hf
    · rw [insertUserOnce_eq] at hbody
      exact absurd hbody (by simp)
  · rcases attemptWith_error _ _ _ _ _ h with hf | hbody
    · exact hf
    · rw [fetchAllSearchesOnce_eq db hvalid] at hbody
      exact absurd hbody (by simp)
  · rcases attemptWith_error _ _ _ _ _ h with hf | hbody
    · exact hf
    · rw [fetchAllUsersOnce_eq db hvalid] at hbody
      exact absurd hbody (by simp)

/-- C3 witness: a failing connectivity layer makes `insert_search` raise
its injected `OperationalError` unchanged, and that raised error is
indeed the database layer's. -/
theorem C3_error_propagation_amended_witness :
    (insert_search_run sampleSearch allOpFaults emptyDB).1
        = Except.error (PyErr.sqlAlchemyError "OperationalError") ∧
    allOpFaults 0 = some (PyErr.sqlAlchemyError "OperationalError") :=
  ⟨C3_error_propagation_amended.1 sampleSearch allOpFaults emptyDB
      (PyErr.sqlAlchemyError "OperationalError") rfl,
    C3_error_propagation_amended.2.2.2.2.1 sampleSearch allOpFaults
      emptyDB (PyErr.sqlAlchemyError "OperationalError") rfl⟩

/-- C4 counterexample: with the underlying execution failing,
`insert_search` fails with the original `OperationalError` — a single
attempt whose error's type name is not `PersistenceError`; no
`PersistenceError` type exists anywhere in the code, and no retries
precede the failure. -/
theorem C4_persistence_error_counterexample :
    insert_search_run sampleSearch allOpFaults emptyDB
      = (Except.error (PyErr.sqlAlchemyError "OperationalError"), 1, []) ∧
    errorTypeName (PyErr.sqlAlchemyError "OperationalError")
        ≠ "PersistenceError" :=
  ⟨rfl, by decide⟩

/-- C4 (amended): `insert_search` (and analogously `insert_user`) fails,
whenever the underlying execution fails (duplicate identifier,
connectivity loss, constraint violation), with the original
database-layer `SQLAlchemyError` — raised directly from the single
attempt performed, there being no retry loop to exhaust and no
`PersistenceError` type in the code. -/
theorem C4_insert_failure_amended :
    ∀ (r : SearchResults) (u : User) (faults : Nat → Option PyErr)
      (db : Database) (s : String),
    faults 0 = some (PyErr.sqlAlchemyError s) →
    (insert_search_run r faults db).1
        = Except.error (PyErr.sqlAlchemyError s) ∧
    (insert_search_run r faults db).2.1 = 1 ∧
    (insert_user_run u faults db).1
        = Except.error (PyErr.sqlAlchemyError s) ∧
    (insert_user_run u faults db).2.1 = 1 ∧
    isSQLAlchemyError (PyErr.sqlAlchemyError s) = true := by
  intro r u faults db s hf
  refine ⟨?_, rfl, ?_, rfl, rfl⟩
  · simp only [insert_search_run, asyncDecoratedRun, attemptWith, hf]
  · simp only [insert_user_run, asyncDecoratedRun, attemptWith, hf]

/-- C4 witness: the amended statement at the failing fault pattern. -/
theorem C4_insert_failure_amended_witness :
    (insert_search_run sampleSearch allOpFaults emptyDB).1
        = Except.error (PyErr.sqlAlchemyError "OperationalError") ∧
    (insert_search_run sampleSearch allOpFaults emptyDB).2.1 = 1 ∧
    (insert_user_run sampleUser allOpFaults emptyDB).1
        = Except.error (PyErr.sqlAlchemyError "OperationalError") ∧
    (insert_user_run sampleUser allOpFaults emptyDB).2.1 = 1 ∧
    isSQLAlchemyError (PyErr.sqlAlchemyError "OperationalError") = true :=
  C4_insert_failure_amended sampleSearch sampleUser allOpFaults emptyDB
    "OperationalError" rfl

end YahooDAO
